import Mathlib

/-!
A shallow embedding in Lean 4 of the dotPipe language core implemented in
`src/src/interpreter.py` of the dotpipe/dotFly repository: the tokenizer
(`Lexer`), the recursive-descent parser (`Parser`), the runtime environment
with its built-in function registry (`Runtime`), the tree-walking evaluator
(`Interpreter`) and the top-level `interpret` entry point.

Modelling conventions:
* Python runtime values become the closed inductive `Value`
  (none / bool / int / float / str / list / dict).  Python `float`s are
  modelled as exact rationals; floating-point rounding is not modelled
  (no verified claim depends on rounding).
* Python exceptions become the inductive `PyErr`; raising is modelled with
  the `Outcome` type, whose `hang` constructor stands for non-termination
  (reachable only through the `while` built-in, whose truthy non-callable
  condition loops forever in the source).
* Side effects (printed output, interactive input, `random`) are threaded
  through an explicit `EffState`; each `print` and each `input` prompt is
  one entry of the output trace, and `random` draws from an oracle stream
  carried in the state.
* Unicode-dependent character predicates (`isspace`, `isalpha`, ...) are
  modelled on the ASCII fragment.
-/

set_option maxHeartbeats 1000000

namespace DotPipe

/-- The dotPipe runtime value universe (Python values reachable in the
interpreter): `None`, booleans, ints, floats (as exact rationals), strings,
lists and string-keyed dicts. -/
inductive Value where
  | none
  | bool (b : Bool)
  | int (n : Int)
  | float (q : Rat)
  | str (s : String)
  | list (xs : List Value)
  | dict (entries : List (String × Value))
deriving Repr

/-- Python exceptions that the interpreter module can raise, each carrying
its message string (NameError, TypeError, ValueError, AttributeError,
ZeroDivisionError, EOFError). -/
inductive PyErr where
  | nameError (msg : String)
  | typeError (msg : String)
  | valueError (msg : String)
  | attributeError (msg : String)
  | zeroDivisionError (msg : String)
  | eofError (msg : String)
  | keyError (msg : String)
deriving Repr, DecidableEq

/-- The message text of an exception, as `str(e)` renders it in
`print(f"Error: {e}")`. -/
def PyErr.msg : PyErr → String
  | .nameError m => m
  | .typeError m => m
  | .valueError m => m
  | .attributeError m => m
  | .zeroDivisionError m => m
  | .eofError m => m
  | .keyError m => m

/-- Result of running a piece of Python code: a value, a raised exception,
or non-termination. -/
inductive Outcome (α : Type) where
  | ok (a : α)
  | err (e : PyErr)
  | hang
deriving Repr

/-- ASCII model of Python `str.isspace` for single characters. -/
def pyIsSpace (c : Char) : Bool :=
  c = ' ' || c = '\t' || c = '\n' || c = '\r' || c = '\x0b' || c = '\x0c'

/-- ASCII model of Python `str.isdigit`. -/
def pyIsDigit (c : Char) : Bool := c.isDigit

/-- ASCII model of Python `str.isalpha`. -/
def pyIsAlpha (c : Char) : Bool := c.isAlpha

/-- ASCII model of Python `str.isalnum`. -/
def pyIsAlnum (c : Char) : Bool := pyIsDigit c || pyIsAlpha c

/-- A Python number: either an `int` or a `float` (bools have already been
coerced to ints by `numView`, mirroring `bool` being an `int` subclass). -/
inductive NumV where
  | i (n : Int)
  | f (q : Rat)
deriving Repr, DecidableEq

/-- The rational magnitude of a number. -/
def NumV.toRat : NumV → Rat
  | .i n => (n : Rat)
  | .f q => q

/-- Re-inject a number into the value universe. -/
def NumV.toValue : NumV → Value
  | .i n => .int n
  | .f q => .float q

/-- View a value as a Python number: bools count as ints (`True == 1`),
ints and floats as themselves; everything else is not a number. -/
def numView : Value → Option NumV
  | .bool b => some (.i (if b then 1 else 0))
  | .int n => some (.i n)
  | .float q => some (.f q)
  | _ => Option.none

/-- View a value as a Python `int` (bool or int), used where CPython demands
an integral operand (sequence repetition, slice indices). -/
def intView : Value → Option Int
  | .bool b => some (if b then 1 else 0)
  | .int n => some n
  | _ => Option.none

/-- Numeric `+` with Python promotion: int+int stays int, any float operand
gives a float. -/
def nvAdd : NumV → NumV → NumV
  | .i a, .i b => .i (a + b)
  | x, y => .f (x.toRat + y.toRat)

/-- Numeric `-` with Python promotion. -/
def nvSub : NumV → NumV → NumV
  | .i a, .i b => .i (a - b)
  | x, y => .f (x.toRat - y.toRat)

/-- Numeric `*` with Python promotion. -/
def nvMul : NumV → NumV → NumV
  | .i a, .i b => .i (a * b)
  | x, y => .f (x.toRat * y.toRat)

/-- Python truthiness (`bool(v)`). -/
def pyTruthy : Value → Bool
  | .none => false
  | .bool b => b
  | .int n => decide (n ≠ 0)
  | .float q => decide (q ≠ 0)
  | .str s => decide (s ≠ "")
  | .list xs => !xs.isEmpty
  | .dict es => !es.isEmpty

/-- A single-quote character as a string (used by Python `repr` of strings). -/
def sq : String := String.singleton (Char.ofNat 39)

/-- Rendering of a float by `str`: integral floats as `n.0`; non-integral
floats rendered as `num/den` (Python prints a decimal expansion; no verified
claim depends on the text of a non-integral float). -/
def floatStr (q : Rat) : String :=
  if q.den = 1 then toString q.num ++ ".0" else toString q.num ++ "/" ++ toString q.den

mutual

/-- Python `str(v)` for the modelled value universe. -/
def pyStr : Value → String
  | .none => "None"
  | .bool b => if b then "True" else "False"
  | .int n => toString n
  | .float q => floatStr q
  | .str s => s
  | .list xs => "[" ++ String.intercalate ", " (pyReprList xs) ++ "]"
  | .dict es => "\x7b" ++ String.intercalate ", " (pyReprDict es) ++ "\x7d"

/-- Python `repr(v)`: like `str` except strings gain quotes (escape
sequences inside reprs are not modelled). -/
def pyRepr : Value → String
  | .str s => sq ++ s ++ sq
  | .none => "None"
  | .bool b => if b then "True" else "False"
  | .int n => toString n
  | .float q => floatStr q
  | .list xs => "[" ++ String.intercalate ", " (pyReprList xs) ++ "]"
  | .dict es => "\x7b" ++ String.intercalate ", " (pyReprDict es) ++ "\x7d"

/-- `repr` of each element of a list. -/
def pyReprList : List Value → List String
  | [] => []
  | x :: xs => pyRepr x :: pyReprList xs

/-- `repr` of each `key: value` entry of a dict. -/
def pyReprDict : List (String × Value) → List String
  | [] => []
  | (k, v) :: es => (sq ++ k ++ sq ++ ": " ++ pyRepr v) :: pyReprDict es

end

mutual

/-- Python `==` on the modelled value universe: numeric values (bool, int,
float) compare by magnitude, strings and `None` by identity of shape, lists
elementwise, dicts by key lookup; values of different shapes are unequal. -/
def pyEq : Value → Value → Bool
  | v, w =>
    match numView v, numView w with
    | some a, some b => a.toRat == b.toRat
    | _, _ =>
      match v, w with
      | .none, .none => true
      | .str a, .str b => a == b
      | .list xs, .list ys => pyEqList xs ys
      | .dict a, .dict b =>
          a.length == b.length && pyEqEntries a b
      | _, _ => false

/-- Elementwise list equality. -/
def pyEqList : List Value → List Value → Bool
  | [], [] => true
  | x :: xs, y :: ys => pyEq x y && pyEqList xs ys
  | _, _ => false

/-- Every entry of the first dict is matched by key in the second. -/
def pyEqEntries : List (String × Value) → List (String × Value) → Bool
  | [], _ => true
  | (k, v) :: rest, b => pyEqFind k v b && pyEqEntries rest b

/-- Look up a key in a dict and compare the stored value. -/
def pyEqFind (k : String) (v : Value) : List (String × Value) → Bool
  | [] => false
  | (k2, w) :: rest => if k == k2 then pyEq v w else pyEqFind k v rest

end

/-- Python `!=`. -/
def pyNe (v w : Value) : Bool := !pyEq v w

/-- Python `<`-style three-way comparison: numbers by magnitude, strings
lexicographically; any other combination raises a `TypeError`
(list-vs-list lexicographic comparison is outside the modelled fragment). -/
def pyCompare (v w : Value) : Outcome Ordering :=
  match numView v, numView w with
  | some a, some b =>
      .ok (if a.toRat < b.toRat then .lt else if b.toRat < a.toRat then .gt else .eq)
  | _, _ =>
    match v, w with
    | .str a, .str b => .ok (if a < b then .lt else if b < a then .gt else .eq)
    | _, _ => .err (.typeError "comparison not supported between operand types")

/-- Python iteration (`for x in v`): lists yield elements, strings yield
one-character strings, dicts yield their keys; other values are not
iterable. -/
def pyIter : Value → Outcome (List Value)
  | .list xs => .ok xs
  | .str s => .ok (s.toList.map (fun c => .str (String.singleton c)))
  | .dict es => .ok (es.map (fun e => .str e.1))
  | _ => .err (.typeError "object is not iterable")

/-- Sequence repetition `n * s` for strings (non-positive `n` gives ""). -/
def strRep (n : Int) (s : String) : String :=
  String.join (List.replicate n.toNat s)

/-- Sequence repetition `n * xs` for lists. -/
def listRep (n : Int) (xs : List Value) : List Value :=
  (List.replicate n.toNat xs).flatten

/-- Normalize one Python slice index against length `n`: negative indices
count from the end, then clamp into `[0, n]`. -/
def sliceIndex (n : Nat) (i : Int) : Nat :=
  if i < 0 then ((i + n).toNat.min n) else (i.toNat.min n)

/-- Python slice `xs[start:stop]` on a list (`stop = none` means to the
end). -/
def pySliceList (xs : List Value) (start : Int) (stop : Option Int) : List Value :=
  let n := xs.length
  let a := sliceIndex n start
  let b := match stop with | some j => sliceIndex n j | Option.none => n
  (xs.take b).drop a

/-- Python slice `s[start:stop]` on a string. -/
def pySliceStr (s : String) (start : Int) (stop : Option Int) : String :=
  let cs := s.toList
  let n := cs.length
  let a := sliceIndex n start
  let b := match stop with | some j => sliceIndex n j | Option.none => n
  String.mk ((cs.take b).drop a)

/-- Python `str.strip()`: drop leading and trailing whitespace. -/
def pyStrip (s : String) : String :=
  String.mk (((s.toList.dropWhile pyIsSpace).reverse.dropWhile pyIsSpace).reverse)

/-- Replace every non-overlapping occurrence of `old` (non-empty) by `new`,
scanning left to right. -/
def replaceAux (old new : List Char) : List Char → List Char
  | [] => []
  | c :: rest =>
      if old ≠ [] ∧ old.isPrefixOf (c :: rest) then
        new ++ replaceAux old new ((c :: rest).drop old.length)
      else
        c :: replaceAux old new rest
termination_by cs => cs.length
decreasing_by
  · rename_i h
    have hlen : 0 < old.length := by
      cases old with
      | nil => exact absurd rfl h.1
      | cons a as => simp
    simp [List.length_drop]
    omega
  · simp

/-- Python `str.replace(old, new)` (all occurrences; an empty `old` inserts
`new` before every character and at the end). -/
def pyReplace (s old new : String) : String :=
  if old = "" then
    String.intercalate new (("" :: s.toList.map String.singleton) ++ [""])
  else
    String.mk (replaceAux old.toList new.toList s.toList)

/-- Numeric value of a run of ASCII digits. -/
def digitsVal (cs : List Char) : Nat :=
  cs.foldl (fun a c => a * 10 + (c.toNat - 48)) 0

/-- Model of Python `int(s)` on the strings the parser can feed it: succeeds
exactly on non-empty all-digit strings (signs, whitespace and underscores
are outside the modelled fragment). -/
def pyInt? (s : String) : Option Int :=
  let cs := s.toList
  if cs ≠ [] ∧ cs.all pyIsDigit then some (digitsVal cs : Nat) else Option.none

/-- Model of Python `float(s)` on digit-and-dot strings: succeeds exactly
when there is at most one dot, at least one digit, and nothing but digits
and dots (exponents, signs and whitespace are outside the modelled
fragment). -/
def pyFloat? (s : String) : Option Rat :=
  let cs := s.toList
  if (cs.all fun c => pyIsDigit c || c = '.') ∧ (cs.filter (· = '.')).length ≤ 1 ∧
      cs.any pyIsDigit then
    match cs.splitOn '.' with
    | [intPart] => some ((digitsVal intPart : Int) : Rat)
    | [intPart, fracPart] =>
        some ((digitsVal intPart : Int) +
          (digitsVal fracPart : Int) / ((10 : Rat) ^ fracPart.length))
    | _ => Option.none
  else Option.none

/-! ## The built-in function registry (`Runtime._setup_builtins`) -/

/-- The observable effect state threaded through execution: the output
trace (one entry per `print` call or `input` prompt write), the pending
interactive-input lines, and an oracle stream for `random`. -/
structure EffState where
  output : List String
  stdinQ : List String
  randStream : Nat → Rat
  randIdx : Nat

/-- The type of a registry entry: a callable over a positional argument
list, threading the effect state. -/
def BFun : Type := List Value → EffState → EffState × Outcome Value

/-- Lift a pure built-in into the effectful registry signature. -/
def pureFn (f : List Value → Outcome Value) : BFun := fun args eff => (eff, f args)

/-- Python binary `+`: numeric addition with promotion, string and list
concatenation; anything else raises `TypeError`. -/
def pyAddV (v w : Value) : Outcome Value :=
  match numView v, numView w with
  | some a, some b => .ok (nvAdd a b).toValue
  | _, _ =>
    match v, w with
    | .str a, .str b => .ok (.str (a ++ b))
    | .list xs, .list ys => .ok (.list (xs ++ ys))
    | _, _ => .err (.typeError "unsupported operand types for +")

/-- Python binary `*`: numeric multiplication with promotion, and
int-times-sequence repetition; anything else raises `TypeError`. -/
def pyMulV (v w : Value) : Outcome Value :=
  match numView v, numView w with
  | some a, some b => .ok (nvMul a b).toValue
  | _, _ =>
    match intView v, w with
    | some n, .str s => .ok (.str (strRep n s))
    | some n, .list xs => .ok (.list (listRep n xs))
    | _, _ =>
      match v, intView w with
      | .str s, some n => .ok (.str (strRep n s))
      | .list xs, some n => .ok (.list (listRep n xs))
      | _, _ => .err (.typeError "unsupported operand types for *")

/-- `sum(args)`: fold Python `+` starting from the int `0`. -/
def sumVals : Value → List Value → Outcome Value
  | acc, [] => .ok acc
  | acc, x :: xs =>
    match pyAddV acc x with
    | .ok r => sumVals r xs
    | .err e => .err e
    | .hang => .hang

/-- `math.prod(args)`: fold Python `*` starting from the int `1`. -/
def prodVals : Value → List Value → Outcome Value
  | acc, [] => .ok acc
  | acc, x :: xs =>
    match pyMulV acc x with
    | .ok r => prodVals r xs
    | .err e => .err e
    | .hang => .hang

/-- `'add': lambda *args: sum(args)` -/
def builtin_add (args : List Value) : Outcome Value := sumVals (.int 0) args

/-- `'sub': lambda a, b: a - b` -/
def builtin_sub : List Value → Outcome Value
  | [a, b] =>
    (match numView a, numView b with
     | some x, some y => .ok (nvSub x y).toValue
     | _, _ => .err (.typeError "unsupported operand types for -"))
  | _ => .err (.typeError "sub takes exactly 2 arguments")

/-- `'mul': lambda *args: math.prod(args) if args else 0` -/
def builtin_mul : List Value → Outcome Value
  | [] => .ok (.int 0)
  | args => prodVals (.int 1) args

/-- Python true division `a / b`: always yields a float; non-numeric
operands raise `TypeError`. -/
def pyDivV (a b : Value) : Outcome Value :=
  match numView a, numView b with
  | some x, some y =>
      if y.toRat = 0 then .err (.zeroDivisionError "division by zero")
      else .ok (.float (x.toRat / y.toRat))
  | _, _ => .err (.typeError "unsupported operand types for /")

/-- Python `a % b` on numbers (floored modulo, following the divisor's
sign); string formatting is outside the modelled fragment. -/
def pyModV (a b : Value) : Outcome Value :=
  match numView a, numView b with
  | some (.i x), some (.i y) =>
      if y = 0 then .err (.zeroDivisionError "integer modulo by zero")
      else .ok (.int (Int.fmod x y))
  | some x, some y =>
      if y.toRat = 0 then .err (.zeroDivisionError "float modulo")
      else .ok (.float (x.toRat - y.toRat * ((x.toRat / y.toRat).floor : Rat)))
  | _, _ => .err (.typeError "unsupported operand types for %")

/-- `'div': lambda a, b: a / b if b != 0 else 0` -/
def builtin_div : List Value → Outcome Value
  | [a, b] => if pyNe b (.int 0) then pyDivV a b else .ok (.int 0)
  | _ => .err (.typeError "div takes exactly 2 arguments")

/-- `'mod': lambda a, b: a % b if b != 0 else 0` -/
def builtin_mod : List Value → Outcome Value
  | [a, b] => if pyNe b (.int 0) then pyModV a b else .ok (.int 0)
  | _ => .err (.typeError "mod takes exactly 2 arguments")

/-- `'abs': lambda a: abs(a)` -/
def builtin_abs : List Value → Outcome Value
  | [v] =>
    (match numView v with
     | some (.i n) => .ok (.int n.natAbs)
     | some (.f q) => .ok (.float |q|)
     | _ => .err (.typeError "bad operand type for abs"))
  | _ => .err (.typeError "abs takes exactly 1 argument")

/-- A fixed computable stand-in for the real square root (exact on perfect
squares); `math.sqrt` returns an irrational real in general and no verified
claim depends on its value. -/
def sqrtQ (q : Rat) : Rat := (Nat.sqrt (q.num.toNat * q.den) : Rat) / (q.den : Rat)

/-- `'sqrt': lambda a: math.sqrt(a)` -/
def builtin_sqrt : List Value → Outcome Value
  | [v] =>
    (match numView v with
     | some x => if x.toRat < 0 then .err (.valueError "math domain error")
                 else .ok (.float (sqrtQ x.toRat))
     | _ => .err (.typeError "must be real number"))
  | _ => .err (.typeError "sqrt takes exactly 1 argument")

/-- A fixed computable stand-in for a fractional power (irrational in
general; no verified claim depends on its value). -/
def fracPowQ (_a _b : Rat) : Rat := 0

/-- `'pow': lambda a, b: pow(a, b)` -/
def builtin_pow : List Value → Outcome Value
  | [a, b] =>
    (match numView a, numView b with
     | some (.i x), some (.i y) =>
        if 0 ≤ y then .ok (.int (x ^ y.toNat))
        else if x = 0 then .err (.zeroDivisionError "zero to a negative power")
        else .ok (.float ((x : Rat) ^ y))
     | some x, some y =>
        if y.toRat.den = 1 then
          if x.toRat = 0 ∧ y.toRat.num < 0 then
            .err (.zeroDivisionError "zero to a negative power")
          else .ok (.float (x.toRat ^ y.toRat.num))
        else if x.toRat < 0 then .err (.valueError "complex result not modelled")
        else .ok (.float (fracPowQ x.toRat y.toRat))
     | _, _ => .err (.typeError "unsupported operand types for pow"))
  | _ => .err (.typeError "pow takes exactly 2 arguments")

/-- Python `round`: banker's rounding (round half to even). -/
def roundHalfEven (q : Rat) : Int :=
  let f := q.floor
  let r := q - (f : Rat)
  if r < 1/2 then f
  else if (1 : Rat)/2 < r then f + 1
  else if f % 2 = 0 then f else f + 1

/-- `'round': lambda a: round(a)` -/
def builtin_round : List Value → Outcome Value
  | [v] =>
    (match numView v with
     | some (.i n) => .ok (.int n)
     | some (.f q) => .ok (.int (roundHalfEven q))
     | _ => .err (.typeError "type cannot be rounded"))
  | _ => .err (.typeError "round takes exactly 1 argument")

/-- `'floor': lambda a: math.floor(a)` -/
def builtin_floor : List Value → Outcome Value
  | [v] =>
    (match numView v with
     | some (.i n) => .ok (.int n)
     | some (.f q) => .ok (.int q.floor)
     | _ => .err (.typeError "must be real number"))
  | _ => .err (.typeError "floor takes exactly 1 argument")

/-- `'ceil': lambda a: math.ceil(a)` -/
def builtin_ceil : List Value → Outcome Value
  | [v] =>
    (match numView v with
     | some (.i n) => .ok (.int n)
     | some (.f q) => .ok (.int q.ceil)
     | _ => .err (.typeError "must be real number"))
  | _ => .err (.typeError "ceil takes exactly 1 argument")

/-- Fold of Python `max` over the argument tuple (keeps the earlier element
on ties, as CPython does). -/
def maxFold : Value → List Value → Outcome Value
  | acc, [] => .ok acc
  | acc, x :: xs =>
    match pyCompare acc x with
    | .ok o => maxFold (if o = Ordering.lt then x else acc) xs
    | .err e => .err e
    | .hang => .hang

/-- Fold of Python `min` over the argument tuple. -/
def minFold : Value → List Value → Outcome Value
  | acc, [] => .ok acc
  | acc, x :: xs =>
    match pyCompare acc x with
    | .ok o => minFold (if o = Ordering.gt then x else acc) xs
    | .err e => .err e
    | .hang => .hang

/-- `'max': lambda *args: max(args) if args else 0` -/
def builtin_max : List Value → Outcome Value
  | [] => .ok (.int 0)
  | x :: xs => maxFold x xs

/-- `'min': lambda *args: min(args) if args else 0` -/
def builtin_min : List Value → Outcome Value
  | [] => .ok (.int 0)
  | x :: xs => minFold x xs

/-- `'random': lambda *args: random.uniform(args[0], args[1]) if
len(args) == 2 else random.random()` — the drawn value comes from the
oracle stream in the effect state; `uniform(a, b)` is `a + (b-a)*random()`
as in CPython. -/
def builtin_random : BFun := fun args eff =>
  let r := eff.randStream eff.randIdx
  let eff' := { eff with randIdx := eff.randIdx + 1 }
  match args with
  | [a, b] =>
    (match numView a, numView b with
     | some x, some y => (eff', .ok (.float (x.toRat + (y.toRat - x.toRat) * r)))
     | _, _ => (eff, .err (.typeError "unsupported operand types for uniform")))
  | _ => (eff', .ok (.float r))

/-- `'concat': lambda *args: ''.join(str(a) for a in args)` -/
def builtin_concat (args : List Value) : Outcome Value :=
  .ok (.str (String.join (args.map pyStr)))

/-- `'uppercase': lambda s: str(s).upper()` (ASCII case map) -/
def builtin_uppercase : List Value → Outcome Value
  | [v] => .ok (.str ((pyStr v).map Char.toUpper))
  | _ => .err (.typeError "uppercase takes exactly 1 argument")

/-- `'lowercase': lambda s: str(s).lower()` (ASCII case map) -/
def builtin_lowercase : List Value → Outcome Value
  | [v] => .ok (.str ((pyStr v).map Char.toLower))
  | _ => .err (.typeError "lowercase takes exactly 1 argument")

/-- `'split': lambda s, delim: str(s).split(delim)` -/
def builtin_split : List Value → Outcome Value
  | [s, .str d] =>
      if d = "" then .err (.valueError "empty separator")
      else .ok (.list (((pyStr s).splitOn d).map .str))
  | [_, _] => .err (.typeError "must be str or None")
  | _ => .err (.typeError "split takes exactly 2 arguments")

/-- `'join': lambda arr, delim: delim.join(str(a) for a in arr)` -/
def builtin_join : List Value → Outcome Value
  | [arr, .str d] =>
    (match pyIter arr with
     | .ok items => .ok (.str (String.intercalate d (items.map pyStr)))
     | .err e => .err e
     | .hang => .hang)
  | [_, _] => .err (.attributeError "object has no attribute join")
  | _ => .err (.typeError "join takes exactly 2 arguments")

/-- `'length': lambda s: len(s)` -/
def builtin_length : List Value → Outcome Value
  | [.str s] => .ok (.int s.length)
  | [.list xs] => .ok (.int xs.length)
  | [.dict es] => .ok (.int es.length)
  | [_] => .err (.typeError "object has no len")
  | _ => .err (.typeError "length takes exactly 1 argument")

/-- `'substring': lambda s, start, end=None: str(s)[start:end]` -/
def builtin_substring : List Value → Outcome Value
  | [s, a] =>
    (match intView a with
     | some i => .ok (.str (pySliceStr (pyStr s) i Option.none))
     | _ => .err (.typeError "slice indices must be integers or None"))
  | [s, a, e] =>
    (match intView a, e with
     | some i, .none => .ok (.str (pySliceStr (pyStr s) i Option.none))
     | some i, _ =>
       (match intView e with
        | some j => .ok (.str (pySliceStr (pyStr s) i (some j)))
        | _ => .err (.typeError "slice indices must be integers or None"))
     | _, _ => .err (.typeError "slice indices must be integers or None"))
  | _ => .err (.typeError "substring takes 2 or 3 arguments")

/-- `'trim': lambda s: str(s).strip()` -/
def builtin_trim : List Value → Outcome Value
  | [v] => .ok (.str (pyStrip (pyStr v)))
  | _ => .err (.typeError "trim takes exactly 1 argument")

/-- `'replace': lambda s, old, new: str(s).replace(old, new)` -/
def builtin_replace : List Value → Outcome Value
  | [s, .str o, .str n] => .ok (.str (pyReplace (pyStr s) o n))
  | [_, _, _] => .err (.typeError "replace argument must be str")
  | _ => .err (.typeError "replace takes exactly 3 arguments")

/-- The effect of `arr.pop()` on a list: `None` and the unchanged (empty)
list when empty, otherwise the last element and the list without it. -/
def listPop : List Value → Value × List Value
  | [] => (.none, [])
  | [x] => (x, [])
  | x :: y :: xs =>
      let (v, rest) := listPop (y :: xs)
      (v, x :: rest)

/-- The effect of `arr.pop(0)` on a list: `None` and the unchanged (empty)
list when empty, otherwise the first element and the tail. -/
def listShift : List Value → Value × List Value
  | [] => (.none, [])
  | x :: xs => (x, xs)

/-- `'push': lambda arr, val: arr.append(val) or arr` -/
def builtin_push : List Value → Outcome Value
  | [.list xs, v] => .ok (.list (xs ++ [v]))
  | [_, _] => .err (.attributeError "object has no attribute append")
  | _ => .err (.typeError "push takes exactly 2 arguments")

/-- `'pop': lambda arr: arr.pop() if arr else None` — a truthy non-list
either lacks a `pop` attribute or (for dicts) rejects the zero-argument
call; the in-place removal is captured by `listPop`. -/
def builtin_pop : List Value → Outcome Value
  | [.list xs] => .ok (listPop xs).1
  | [.dict es] =>
      if es.isEmpty then .ok .none
      else .err (.typeError "pop expected at least 1 argument, got 0")
  | [v] =>
      if pyTruthy v then .err (.attributeError "object has no attribute pop")
      else .ok .none
  | _ => .err (.typeError "pop takes exactly 1 argument")

/-- `'shift': lambda arr: arr.pop(0) if arr else None` — `dict.pop(0)` on a
non-empty dict raises `KeyError` since `0` is not a key. -/
def builtin_shift : List Value → Outcome Value
  | [.list xs] => .ok (listShift xs).1
  | [.dict es] =>
      if es.isEmpty then .ok .none else .err (.keyError "0")
  | [v] =>
      if pyTruthy v then .err (.attributeError "object has no attribute pop")
      else .ok .none
  | _ => .err (.typeError "shift takes exactly 1 argument")

/-- `'unshift': lambda arr, val: arr.insert(0, val) or arr` -/
def builtin_unshift : List Value → Outcome Value
  | [.list xs, v] => .ok (.list (v :: xs))
  | [_, _] => .err (.attributeError "object has no attribute insert")
  | _ => .err (.typeError "unshift takes exactly 2 arguments")

/-- Subscript `arr[start:end]` shared by `slice`. -/
def pySubscriptSlice (arr : Value) (i : Int) (j : Option Int) : Outcome Value :=
  match arr with
  | .list xs => .ok (.list (pySliceList xs i j))
  | .str s => .ok (.str (pySliceStr s i j))
  | .dict _ => .err (.typeError "unhashable type: slice")
  | _ => .err (.typeError "object is not subscriptable")

/-- `'slice': lambda arr, start, end=None: arr[start:end]` -/
def builtin_slice : List Value → Outcome Value
  | [arr, a] =>
    (match intView a with
     | some i => pySubscriptSlice arr i Option.none
     | _ => .err (.typeError "slice indices must be integers or None"))
  | [arr, a, e] =>
    (match intView a, e with
     | some i, .none => pySubscriptSlice arr i Option.none
     | some i, _ =>
       (match intView e with
        | some j => pySubscriptSlice arr i (some j)
        | _ => .err (.typeError "slice indices must be integers or None"))
     | _, _ => .err (.typeError "slice indices must be integers or None"))
  | _ => .err (.typeError "slice takes 2 or 3 arguments")

/-- `'reverse': lambda arr: arr[::-1]` -/
def builtin_reverse : List Value → Outcome Value
  | [.list xs] => .ok (.list xs.reverse)
  | [.str s] => .ok (.str (String.mk s.toList.reverse))
  | [.dict _] => .err (.typeError "unhashable type: slice")
  | [_] => .err (.typeError "object is not subscriptable")
  | _ => .err (.typeError "reverse takes exactly 1 argument")

/-- Stable insertion into a `<`-sorted list (equal keys keep original
order, as Python's stable sort does). -/
def insertByLt (lt : Value → Value → Bool) (x : Value) : List Value → List Value
  | [] => [x]
  | y :: ys => if lt x y then x :: y :: ys else y :: insertByLt lt x ys

/-- Stable insertion sort by a strict-less test. -/
def sortByLt (lt : Value → Value → Bool) : List Value → List Value
  | [] => []
  | x :: xs => insertByLt lt x (sortByLt lt xs)

/-- Is this value a string? -/
def isStrV : Value → Bool
  | .str _ => true
  | _ => false

/-- `'sort': lambda arr: sorted(arr)` — all-numeric and all-string inputs
sort; sequences of at most one element never compare; any other mix raises
`TypeError` when adjacent elements are compared. -/
def builtin_sort : List Value → Outcome Value
  | [v] =>
    (match pyIter v with
     | .ok items =>
        if items.length ≤ 1 then .ok (.list items)
        else if items.all (fun x => (numView x).isSome) then
          .ok (.list (sortByLt (fun a b =>
            match numView a, numView b with
            | some x, some y => decide (x.toRat < y.toRat)
            | _, _ => false) items))
        else if items.all isStrV then
          .ok (.list (sortByLt (fun a b =>
            match a, b with
            | .str x, .str y => decide (x < y)
            | _, _ => false) items))
        else .err (.typeError "comparison not supported between instances")
     | .err e => .err e
     | .hang => .hang)
  | _ => .err (.typeError "sort takes exactly 1 argument")

/-- `'map': lambda arr, func: [func(x) for x in arr]` — no value in the
modelled universe is callable, so any non-empty iteration raises
`TypeError` at the first `func(x)`. -/
def builtin_map : List Value → Outcome Value
  | [arr, _] =>
    (match pyIter arr with
     | .ok [] => .ok (.list [])
     | .ok _ => .err (.typeError "object is not callable")
     | .err e => .err e
     | .hang => .hang)
  | _ => .err (.typeError "map takes exactly 2 arguments")

/-- `'filter': lambda arr, func: [x for x in arr if func(x)]` -/
def builtin_filter : List Value → Outcome Value
  | [arr, _] =>
    (match pyIter arr with
     | .ok [] => .ok (.list [])
     | .ok _ => .err (.typeError "object is not callable")
     | .err e => .err e
     | .hang => .hang)
  | _ => .err (.typeError "filter takes exactly 2 arguments")

/-- `'find': lambda arr, func: next((x for x in arr if func(x)), None)` -/
def builtin_find : List Value → Outcome Value
  | [arr, _] =>
    (match pyIter arr with
     | .ok [] => .ok .none
     | .ok _ => .err (.typeError "object is not callable")
     | .err e => .err e
     | .hang => .hang)
  | _ => .err (.typeError "find takes exactly 2 arguments")

/-- `'some': lambda arr, func: any(func(x) for x in arr)` -/
def builtin_some : List Value → Outcome Value
  | [arr, _] =>
    (match pyIter arr with
     | .ok [] => .ok (.bool false)
     | .ok _ => .err (.typeError "object is not callable")
     | .err e => .err e
     | .hang => .hang)
  | _ => .err (.typeError "some takes exactly 2 arguments")

/-- `'every': lambda arr, func: all(func(x) for x in arr)` -/
def builtin_every : List Value → Outcome Value
  | [arr, _] =>
    (match pyIter arr with
     | .ok [] => .ok (.bool true)
     | .ok _ => .err (.typeError "object is not callable")
     | .err e => .err e
     | .hang => .hang)
  | _ => .err (.typeError "every takes exactly 2 arguments")

/-- First value stored under a key in a Python dict-style association
list. -/
def lookupAssoc {α : Type} : List (String × α) → String → Option α
  | [], _ => Option.none
  | (k, v) :: rest, key => if k = key then some v else lookupAssoc rest key

/-- `d[key] = v`, preserving insertion order as Python dicts do: replace an
existing entry in place, otherwise append. -/
def dictSet : List (String × Value) → String → Value → List (String × Value)
  | [], key, v => [(key, v)]
  | (k, w) :: rest, key, v =>
      if k = key then (k, v) :: rest else (k, w) :: dictSet rest key v

/-- `'keys': lambda obj: list(obj.keys()) if isinstance(obj, dict) else []` -/
def builtin_keys : List Value → Outcome Value
  | [.dict es] => .ok (.list (es.map (fun e => .str e.1)))
  | [_] => .ok (.list [])
  | _ => .err (.typeError "keys takes exactly 1 argument")

/-- `'values': lambda obj: list(obj.values()) if isinstance(obj, dict) else []` -/
def builtin_values : List Value → Outcome Value
  | [.dict es] => .ok (.list (es.map (fun e => e.2)))
  | [_] => .ok (.list [])
  | _ => .err (.typeError "values takes exactly 1 argument")

/-- `'get': lambda obj, key: obj.get(key) if isinstance(obj, dict) else None`
— a missing key (including any key outside the string-keyed model) yields
`None`. -/
def builtin_get : List Value → Outcome Value
  | [.dict es, .str k] => .ok ((lookupAssoc es k).getD .none)
  | [_, _] => .ok .none
  | _ => .err (.typeError "get takes exactly 2 arguments")

/-- `'set': lambda obj, key, val: obj.update({key: val}) or obj if
isinstance(obj, dict) else obj` — non-dict receivers are returned
unchanged; non-string keys are outside the string-keyed model and leave
the dict unchanged. -/
def builtin_set : List Value → Outcome Value
  | [.dict es, .str k, v] => .ok (.dict (dictSet es k v))
  | [.dict es, _, _] => .ok (.dict es)
  | [obj, _, _] => .ok obj
  | _ => .err (.typeError "set takes exactly 3 arguments")

/-- `type(v).__name__` -/
def typeName : Value → String
  | .none => "NoneType"
  | .bool _ => "bool"
  | .int _ => "int"
  | .float _ => "float"
  | .str _ => "str"
  | .list _ => "list"
  | .dict _ => "dict"

/-- `'typeof': lambda val: type(val).__name__` -/
def builtin_typeof : List Value → Outcome Value
  | [v] => .ok (.str (typeName v))
  | _ => .err (.typeError "typeof takes exactly 1 argument")

/-- `'tostring': lambda val: str(val)` -/
def builtin_tostring : List Value → Outcome Value
  | [v] => .ok (.str (pyStr v))
  | _ => .err (.typeError "tostring takes exactly 1 argument")

/-- `'tonumber': lambda val: float(val) if isinstance(val, str) else val` -/
def builtin_tonumber : List Value → Outcome Value
  | [.str s] =>
    (match pyFloat? s with
     | some q => .ok (.float q)
     | _ => .err (.valueError ("could not convert string to float: " ++ s)))
  | [v] => .ok v
  | _ => .err (.typeError "tonumber takes exactly 1 argument")

/-- `'tobool': lambda val: bool(val)` -/
def builtin_tobool : List Value → Outcome Value
  | [v] => .ok (.bool (pyTruthy v))
  | _ => .err (.typeError "tobool takes exactly 1 argument")

/-- `'isnull': lambda val: val is None` -/
def builtin_isnull : List Value → Outcome Value
  | [.none] => .ok (.bool true)
  | [_] => .ok (.bool false)
  | _ => .err (.typeError "isnull takes exactly 1 argument")

/-- `'eq': lambda a, b: a == b` -/
def builtin_eq : List Value → Outcome Value
  | [a, b] => .ok (.bool (pyEq a b))
  | _ => .err (.typeError "eq takes exactly 2 arguments")

/-- `'ne': lambda a, b: a != b` -/
def builtin_ne : List Value → Outcome Value
  | [a, b] => .ok (.bool (pyNe a b))
  | _ => .err (.typeError "ne takes exactly 2 arguments")

/-- `'gt': lambda a, b: a > b` -/
def builtin_gt : List Value → Outcome Value
  | [a, b] =>
    (match pyCompare a b with
     | .ok o => .ok (.bool (o = Ordering.gt))
     | .err e => .err e
     | .hang => .hang)
  | _ => .err (.typeError "gt takes exactly 2 arguments")

/-- `'lt': lambda a, b: a < b` -/
def builtin_lt : List Value → Outcome Value
  | [a, b] =>
    (match pyCompare a b with
     | .ok o => .ok (.bool (o = Ordering.lt))
     | .err e => .err e
     | .hang => .hang)
  | _ => .err (.typeError "lt takes exactly 2 arguments")

/-- `'gte': lambda a, b: a >= b` -/
def builtin_gte : List Value → Outcome Value
  | [a, b] =>
    (match pyCompare a b with
     | .ok o => .ok (.bool (o ≠ Ordering.lt))
     | .err e => .err e
     | .hang => .hang)
  | _ => .err (.typeError "gte takes exactly 2 arguments")

/-- `'lte': lambda a, b: a <= b` -/
def builtin_lte : List Value → Outcome Value
  | [a, b] =>
    (match pyCompare a b with
     | .ok o => .ok (.bool (o ≠ Ordering.gt))
     | .err e => .err e
     | .hang => .hang)
  | _ => .err (.typeError "lte takes exactly 2 arguments")

/-- `'and': lambda *args: all(args)` -/
def builtin_and (args : List Value) : Outcome Value :=
  .ok (.bool (args.all pyTruthy))

/-- `'or': lambda *args: any(args)` -/
def builtin_or (args : List Value) : Outcome Value :=
  .ok (.bool (args.any pyTruthy))

/-- `'not': lambda a: not a` -/
def builtin_not : List Value → Outcome Value
  | [v] => .ok (.bool (!pyTruthy v))
  | _ => .err (.typeError "not takes exactly 1 argument")

/-- `Runtime._builtin_if(condition, true_branch, false_branch=None)` —
arguments arrive already evaluated; no modelled value is callable, so the
branches act as plain pre-computed values. -/
def builtin_if : List Value → Outcome Value
  | [c, t] => .ok (if pyTruthy c then t else .none)
  | [c, t, f] => .ok (if pyTruthy c then t else f)
  | _ => .err (.typeError "if takes 2 or 3 arguments")

/-- `Runtime._builtin_for(iterable, func)` — a non-list iterable is wrapped
as a one-element list; `func` is never callable here, so each item maps to
`None`. -/
def builtin_for : List Value → Outcome Value
  | [it, _] =>
      let items := match it with | .list xs => xs | v => [v]
      .ok (.list (items.map (fun _ => Value.none)))
  | _ => .err (.typeError "for takes exactly 2 arguments")

/-- `Runtime._builtin_while(condition_func, body_func)` — a truthy
non-callable condition never changes, so the source loops forever
(modelled as `hang`); a falsy condition skips the loop and returns `None`. -/
def builtin_while : List Value → Outcome Value
  | [c, _] => if pyTruthy c then .hang else .ok .none
  | _ => .err (.typeError "while takes exactly 2 arguments")

/-- `Runtime._builtin_log`: print all arguments space-joined as one output
line, return `None`. -/
def builtin_log : BFun := fun args eff =>
  ({ eff with output := eff.output ++ [String.intercalate " " (args.map pyStr)] },
   .ok .none)

/-- `Runtime._builtin_input(prompt='')`: write the prompt, then consume one
pending input line; reading at end of input raises `EOFError`. -/
def builtin_input : BFun := fun args eff =>
  match args with
  | [] | [_] =>
      let prompt := match args with | [p] => pyStr p | _ => ""
      let eff' := { eff with output := eff.output ++ [prompt] }
      (match eff.stdinQ with
       | [] => (eff', .err (.eofError "EOF when reading a line"))
       | l :: rest => ({ eff' with stdinQ := rest }, .ok (.str l)))
  | _ => (eff, .err (.typeError "input takes at most 1 argument"))

/-- The immutable built-in registry of `Runtime._setup_builtins`, as a
name-to-callable lookup. -/
def lookupBuiltin : String → Option BFun
  | "log" => some builtin_log
  | "print" => some builtin_log
  | "input" => some builtin_input
  | "add" => some (pureFn builtin_add)
  | "sub" => some (pureFn builtin_sub)
  | "mul" => some (pureFn builtin_mul)
  | "div" => some (pureFn builtin_div)
  | "mod" => some (pureFn builtin_mod)
  | "abs" => some (pureFn builtin_abs)
  | "sqrt" => some (pureFn builtin_sqrt)
  | "pow" => some (pureFn builtin_pow)
  | "round" => some (pureFn builtin_round)
  | "floor" => some (pureFn builtin_floor)
  | "ceil" => some (pureFn builtin_ceil)
  | "max" => some (pureFn builtin_max)
  | "min" => some (pureFn builtin_min)
  | "random" => some builtin_random
  | "concat" => some (pureFn builtin_concat)
  | "uppercase" => some (pureFn builtin_uppercase)
  | "lowercase" => some (pureFn builtin_lowercase)
  | "split" => some (pureFn builtin_split)
  | "join" => some (pureFn builtin_join)
  | "length" => some (pureFn builtin_length)
  | "substring" => some (pureFn builtin_substring)
  | "trim" => some (pureFn builtin_trim)
  | "replace" => some (pureFn builtin_replace)
  | "push" => some (pureFn builtin_push)
  | "pop" => some (pureFn builtin_pop)
  | "shift" => some (pureFn builtin_shift)
  | "unshift" => some (pureFn builtin_unshift)
  | "slice" => some (pureFn builtin_slice)
  | "reverse" => some (pureFn builtin_reverse)
  | "sort" => some (pureFn builtin_sort)
  | "map" => some (pureFn builtin_map)
  | "filter" => some (pureFn builtin_filter)
  | "find" => some (pureFn builtin_find)
  | "some" => some (pureFn builtin_some)
  | "every" => some (pureFn builtin_every)
  | "keys" => some (pureFn builtin_keys)
  | "values" => some (pureFn builtin_values)
  | "get" => some (pureFn builtin_get)
  | "set" => some (pureFn builtin_set)
  | "typeof" => some (pureFn builtin_typeof)
  | "tostring" => some (pureFn builtin_tostring)
  | "tonumber" => some (pureFn builtin_tonumber)
  | "tobool" => some (pureFn builtin_tobool)
  | "isnull" => some (pureFn builtin_isnull)
  | "eq" => some (pureFn builtin_eq)
  | "ne" => some (pureFn builtin_ne)
  | "gt" => some (pureFn builtin_gt)
  | "lt" => some (pureFn builtin_lt)
  | "gte" => some (pureFn builtin_gte)
  | "lte" => some (pureFn builtin_lte)
  | "and" => some (pureFn builtin_and)
  | "or" => some (pureFn builtin_or)
  | "not" => some (pureFn builtin_not)
  | "if" => some (pureFn builtin_if)
  | "for" => some (pureFn builtin_for)
  | "while" => some (pureFn builtin_while)
  | _ => Option.none

/-! ## Syntax tree and evaluator (`ASTNode` subclasses and `Interpreter`) -/

/-- The closed set of syntax-tree node kinds: `LiteralNode`,
`VariableNode`, `PipeNode` and `AssignNode` of the source. -/
inductive ASTNode where
  | literalNode (value : Value)
  | variableNode (name : String)
  | pipeNode (funcName : String) (args : List ASTNode)
  | assignNode (varName : String) (value : ASTNode)
deriving Repr

/-- The mutable part of `Runtime`: the `globals`, `locals` and
user-defined `functions` tables, plus the observable effect state.  The
immutable built-in registry lives separately in `lookupBuiltin`. -/
structure InterpState where
  globals : List (String × Value)
  locals : List (String × Value)
  functions : List (String × BFun)
  eff : EffState

/-- A fresh `Runtime.__init__` state: every table empty, no output yet. -/
def initState (stdin : List String) (rs : Nat → Rat) : InterpState :=
  { globals := [], locals := [], functions := [],
    eff := { output := [], stdinQ := stdin, randStream := rs, randIdx := 0 } }

/-- Function resolution of `visit_pipe`: the built-in registry first, then
the user-defined function table. -/
def resolveFn (s : InterpState) (f : String) : Option BFun :=
  match lookupBuiltin f with
  | some bf => some bf
  | _ => lookupAssoc s.functions f

/-- The guarded invocation of `visit_pipe`: run the resolved callable on
the already-evaluated arguments; a raised `TypeError` is re-raised as
`TypeError("Error calling {func_name}: {e}")`, every other outcome passes
through unchanged. -/
def invokeFn (f : String) (bf : BFun) (vs : List Value) (s : InterpState) :
    InterpState × Outcome Value :=
  let (eff', r) := bf vs s.eff
  let s2 := { s with eff := eff' }
  match r with
  | .err (.typeError m) =>
      (s2, .err (.typeError ("Error calling " ++ f ++ ": " ++ m)))
  | _ => (s2, r)

mutual

/-- `Interpreter` dispatch (`visit_literal` / `visit_variable` /
`visit_assign` / `visit_pipe`): evaluate one node, threading the runtime
state; a raised exception aborts with the state reached so far. -/
def evalNode : ASTNode → InterpState → InterpState × Outcome Value
  | .literalNode v, s => (s, .ok v)
  | .variableNode name, s =>
    (match lookupAssoc s.locals name with
     | some v => (s, .ok v)
     | _ =>
       match lookupAssoc s.globals name with
       | some v => (s, .ok v)
       | _ => (s, .ok .none))
  | .assignNode x e, s =>
    (match evalNode e s with
     | (s', .ok v) => ({ s' with locals := dictSet s'.locals x v }, .ok v)
     | (s', .err e2) => (s', .err e2)
     | (s', .hang) => (s', .hang))
  | .pipeNode f as, s =>
    (match resolveFn s f with
     | some bf =>
       (match evalArgs as s with
        | (s', .ok vs) => invokeFn f bf vs s'
        | (s', .err e) => (s', .err e)
        | (s', .hang) => (s', .hang))
     | _ => (s, .err (.nameError ("Function not found: " ++ f))))

/-- Left-to-right evaluation of a call's argument nodes
(`[arg.accept(self) for arg in node.args]`). -/
def evalArgs : List ASTNode → InterpState → InterpState × Outcome (List Value)
  | [], s => (s, .ok [])
  | a :: as, s =>
    (match evalNode a s with
     | (s', .ok v) =>
       (match evalArgs as s' with
        | (s'', .ok vs) => (s'', .ok (v :: vs))
        | (s'', .err e) => (s'', .err e)
        | (s'', .hang) => (s'', .hang))
     | (s', .err e) => (s', .err e)
     | (s', .hang) => (s', .hang))

end

/-- `Interpreter.execute`: run the statements in order, returning the last
statement's value (`None` for an empty program); the first raised
exception aborts execution, keeping the side effects already produced. -/
def execute : List ASTNode → InterpState → InterpState × Outcome Value
  | [], s => (s, .ok .none)
  | [n], s => evalNode n s
  | n :: ns, s =>
    (match evalNode n s with
     | (s', .ok _) => execute ns s'
     | (s', .err e) => (s', .err e)
     | (s', .hang) => (s', .hang))

/-! ## Tokenizer (`Lexer`) -/

/-- The closed enumeration of token kinds produced by the lexer. -/
inductive TokType where
  | PIPE | VAR_GET | ASSIGN | OBJ_ACCESS | ARR_ACCESS
  | SYMBOL | STRING | NUMBER | IDENT | KEYWORD | EOF
deriving Repr, DecidableEq

/-- A token: kind, text, and the line/column diagnostics the lexer
records. -/
structure Token where
  type : TokType
  value : String
  line : Nat
  col : Nat
deriving Repr, DecidableEq

/-- Characters allowed in a function name after `|`. -/
def pipeNameChar (c : Char) : Bool := pyIsAlnum c || c = '_' || c = '-'

/-- Characters allowed in a variable/object name after `!`, `&`, `@`, `#`. -/
def identChar (c : Char) : Bool := pyIsAlnum c || c = '_'

/-- Characters of an identifier/keyword run. -/
def wordChar (c : Char) : Bool := pyIsAlnum c || c = '_' || c = '-'

/-- Take the longest prefix satisfying `p`; returns the prefix and the
rest. -/
def takeRun (p : Char → Bool) : List Char → List Char × List Char
  | [] => ([], [])
  | c :: rest =>
      if p c then
        let (a, b) := takeRun p rest
        (c :: a, b)
      else ([], c :: rest)

theorem takeRun_rest_length (p : Char → Bool) (cs : List Char) :
    (takeRun p cs).2.length ≤ cs.length := by
  induction cs with
  | nil => simp [takeRun]
  | cons c rest ih =>
      simp only [takeRun]
      split
      · simpa using Nat.le_succ_of_le ih
      · simp

theorem takeRun_cons_pos (p : Char → Bool) (c : Char) (cs : List Char)
    (h : p c = true) : (takeRun p (c :: cs)).2 = (takeRun p cs).2 := by
  simp [takeRun, h]

/-- The body scan of `_read_string`: consume characters (handling `\\n`,
`\\t`, `\\r`, `\\\\` and pass-through escapes) up to an unescaped `"` or
the end of input; returns the string value, the number of source characters
consumed (closing quote included when present), and the rest. -/
def readStrBody : List Char → List Char × Nat × List Char
  | [] => ([], 0, [])
  | c :: rest =>
      if c = '"' then ([], 1, rest)
      else if c = '\\' then
        match rest with
        | [] => (['\\'], 1, [])
        | e :: rest2 =>
            let m := if e = 'n' then '\n'
                     else if e = 't' then '\t'
                     else if e = 'r' then '\r'
                     else if e = '\\' then '\\' else e
            let p := readStrBody rest2
            (m :: p.1, p.2.1 + 2, p.2.2)
      else
        let p := readStrBody rest
        (c :: p.1, p.2.1 + 1, p.2.2)

theorem readStrBody_rest_length : ∀ cs : List Char,
    (readStrBody cs).2.2.length ≤ cs.length
  | [] => by rw [readStrBody.eq_def]
  | c :: rest => by
      rw [readStrBody.eq_def]
      by_cases h : c = '"'
      · simp [h]
      · by_cases h2 : c = '\\'
        · subst h2
          cases rest with
          | nil => simp [h]
          | cons e rest2 =>
              have ih := readStrBody_rest_length rest2
              simp [h]
              omega
        · have ih := readStrBody_rest_length rest
          simp [h, h2]
          omega

/-- Is this the text of a reserved word (`true`, `false`, `null`)? -/
def isKeywordText (s : String) : Bool := s = "true" || s = "false" || s = "null"

/-- The main scanning loop of `Lexer.tokenize`: one dispatch per leading
character (whitespace skipping folded into the same loop), accumulating
tokens in order; unknown characters are skipped silently. -/
def lexLoop : List Char → Nat → Nat → List Token → List Token
  | [], line, col, acc => acc ++ [⟨.EOF, "", line, col⟩]
  | c :: rest, line, col, acc =>
      if pyIsSpace c then
        if c = '\n' then lexLoop rest (line + 1) 1 acc
        else lexLoop rest line (col + 1) acc
      else if c = '|' then
        let v := String.mk (takeRun pipeNameChar rest).1
        let col2 := col + 1 + v.length
        lexLoop (takeRun pipeNameChar rest).2 line col2
          (acc ++ [⟨.PIPE, v, line, col2 - v.length - 1⟩])
      else if c = '!' then
        let v := String.mk (takeRun identChar rest).1
        let col2 := col + 1 + v.length
        let toks := if v ≠ "" then [⟨TokType.VAR_GET, "", line, col⟩,
                                    ⟨TokType.IDENT, v, line, col2 - v.length⟩]
                    else [⟨TokType.VAR_GET, "", line, col⟩]
        lexLoop (takeRun identChar rest).2 line col2 (acc ++ toks)
      else if c = '&' then
        let v := String.mk (takeRun identChar rest).1
        let col2 := col + 1 + v.length
        let toks := if v ≠ "" then [⟨TokType.ASSIGN, "", line, col⟩,
                                    ⟨TokType.IDENT, v, line, col2 - v.length⟩]
                    else [⟨TokType.ASSIGN, "", line, col⟩]
        lexLoop (takeRun identChar rest).2 line col2 (acc ++ toks)
      else if c = '@' then
        let v := String.mk (takeRun identChar rest).1
        let col2 := col + 1 + v.length
        let toks := if v ≠ "" then [⟨TokType.OBJ_ACCESS, "", line, col⟩,
                                    ⟨TokType.IDENT, v, line, col2 - v.length⟩]
                    else [⟨TokType.OBJ_ACCESS, "", line, col⟩]
        (match hq : (takeRun identChar rest).2 with
         | '.' :: rest3 =>
             let w := String.mk (takeRun identChar rest3).1
             let col3 := col2 + 1 + w.length
             let toks2 := if w ≠ "" then toks ++ [⟨TokType.IDENT, w, line, col3 - w.length⟩]
                          else toks
             lexLoop (takeRun identChar rest3).2 line col3 (acc ++ toks2)
         | r2 => lexLoop r2 line col2 (acc ++ toks))
      else if c = '#' then
        let v := String.mk (takeRun identChar rest).1
        let col2 := col + 1 + v.length
        let toks := if v ≠ "" then [⟨TokType.ARR_ACCESS, "", line, col⟩,
                                    ⟨TokType.IDENT, v, line, col2 - v.length⟩]
                    else [⟨TokType.ARR_ACCESS, "", line, col⟩]
        (match hq : (takeRun identChar rest).2 with
         | '.' :: rest3 =>
             let w := String.mk (takeRun pyIsDigit rest3).1
             let col3 := col2 + 1 + w.length
             let toks2 := if w ≠ "" then toks ++ [⟨TokType.NUMBER, w, line, col3 - w.length⟩]
                          else toks
             lexLoop (takeRun pyIsDigit rest3).2 line col3 (acc ++ toks2)
         | r2 => lexLoop r2 line col2 (acc ++ toks))
      else if c = '{' ∨ c = '}' ∨ c = '[' ∨ c = ']' ∨ c = '(' ∨ c = ')' ∨
              c = ':' ∨ c = ',' ∨ c = '-' then
        lexLoop rest line (col + 1) (acc ++ [⟨.SYMBOL, String.singleton c, line, col⟩])
      else if c = '"' then
        let s := String.mk (readStrBody rest).1
        let col2 := col + 1 + (readStrBody rest).2.1
        lexLoop (readStrBody rest).2.2 line col2
          (acc ++ [⟨.STRING, s, line, col2 - s.length⟩])
      else if hdig : pyIsDigit c then
        let v := String.mk (takeRun (fun d => pyIsDigit d || d = '.') (c :: rest)).1
        let col2 := col + v.length
        lexLoop (takeRun (fun d => pyIsDigit d || d = '.') (c :: rest)).2 line col2
          (acc ++ [⟨.NUMBER, v, line, col2 - v.length⟩])
      else if halpha : pyIsAlpha c then
        let v := String.mk (takeRun wordChar (c :: rest)).1
        let col2 := col + v.length
        let t := if isKeywordText v then TokType.KEYWORD else TokType.IDENT
        lexLoop (takeRun wordChar (c :: rest)).2 line col2
          (acc ++ [⟨t, v, line, col2 - v.length⟩])
      else
        lexLoop rest line (col + 1) acc
termination_by cs _ _ _ => cs.length
decreasing_by
  · simp
  · simp
  · have h1 := takeRun_rest_length pipeNameChar rest
    simp only [List.length_cons]; omega
  · have h1 := takeRun_rest_length identChar rest
    simp only [List.length_cons]; omega
  · have h1 := takeRun_rest_length identChar rest
    simp only [List.length_cons]; omega
  · have h1 := takeRun_rest_length identChar rest
    rw [hq] at h1
    have h2 := takeRun_rest_length identChar rest3
    simp only [List.length_cons] at *
    omega
  · have h1 := takeRun_rest_length identChar rest
    rw [hq] at h1
    simp only [List.length_cons]; omega
  · have h1 := takeRun_rest_length identChar rest
    rw [hq] at h1
    have h2 := takeRun_rest_length pyIsDigit rest3
    simp only [List.length_cons] at *
    omega
  · have h1 := takeRun_rest_length identChar rest
    rw [hq] at h1
    simp only [List.length_cons]; omega
  · simp
  · have h1 := readStrBody_rest_length rest
    simp only [List.length_cons]; omega
  · rw [takeRun_cons_pos _ c rest (by simp [hdig])]
    have h1 := takeRun_rest_length (fun d => pyIsDigit d || d = '.') rest
    simp only [List.length_cons]; omega
  · rw [takeRun_cons_pos _ c rest (by simp [wordChar, pyIsAlnum, halpha])]
    have h1 := takeRun_rest_length wordChar rest
    simp only [List.length_cons]; omega
  · simp

/-- `Lexer.tokenize`: scan the whole source (line 1, column 1 start) and
terminate the stream with an `EOF` token. -/
def tokenize (source : String) : List Token :=
  lexLoop source.toList 1 1 []

/-! ## Parser (`Parser`) -/

/-- `Parser.current`: the token at the cursor, or a default `EOF` token
past the end. -/
def currentTok (tokens : List Token) (pos : Nat) : Token :=
  if h : pos < tokens.length then tokens.get ⟨pos, h⟩ else ⟨.EOF, "", 0, 0⟩

theorem currentTok_of_ge (tokens : List Token) (pos : Nat)
    (h : tokens.length ≤ pos) : currentTok tokens pos = ⟨.EOF, "", 0, 0⟩ := by
  simp [currentTok, Nat.not_lt_of_ge h]

theorem lt_of_currentTok_type_ne (tokens : List Token) (pos : Nat)
    (h : (currentTok tokens pos).type ≠ .EOF) : pos < tokens.length := by
  by_contra hge
  rw [currentTok_of_ge tokens pos (Nat.le_of_not_lt hge)] at h
  exact h rfl

/-- The numeric-literal conversion of `_parse_expression`:
`float(token.value) if '.' in token.value else int(token.value)` — this is
where the parser can raise `ValueError`. -/
def numberValue (text : String) : Except PyErr Value :=
  if text.toList.contains '.' then
    match pyFloat? text with
    | some q => .ok (.float q)
    | _ => .error (.valueError ("could not convert string to float: " ++ text))
  else
    match pyInt? text with
    | some n => .ok (.int n)
    | _ => .error (.valueError ("invalid literal for int with base 10: " ++ text))

/-- Negation of a parsed numeric literal (for the `- NUMBER` fold). -/
def negValue : Value → Value
  | .int n => .int (-n)
  | .float q => .float (-q)
  | v => v

/-- `Parser._parse_variable`: skip the `!` marker, take the next token's
text as the name, and advance past it. -/
def parseVariableAt (tokens : List Token) (pos : Nat) : ASTNode × Nat :=
  (.variableNode (currentTok tokens (pos + 1)).value, pos + 2)

mutual

/-- `Parser._parse_expression`: one token (or a `-`-number pair, or a
nested variable/pipe) becomes a node; any unhandled token kind is skipped
and degrades to a `None` literal.  The cursor strictly advances; the only
possible failure is `ValueError` from a numeric literal. -/
def parseExpression (tokens : List Token) (pos : Nat) :
    Except PyErr { p : ASTNode × Nat // pos < p.2 } :=
  if (currentTok tokens pos).type = .STRING then
    .ok ⟨(.literalNode (.str (currentTok tokens pos).value), pos + 1), by omega⟩
  else if (currentTok tokens pos).type = .NUMBER then
    match numberValue (currentTok tokens pos).value with
    | .ok v => .ok ⟨(.literalNode v, pos + 1), by omega⟩
    | .error e => .error e
  else if (currentTok tokens pos).type = .KEYWORD then
    if (currentTok tokens pos).value = "true" then
      .ok ⟨(.literalNode (.bool true), pos + 1), by omega⟩
    else if (currentTok tokens pos).value = "false" then
      .ok ⟨(.literalNode (.bool false), pos + 1), by omega⟩
    else
      .ok ⟨(.literalNode .none, pos + 1), by omega⟩
  else if (currentTok tokens pos).type = .VAR_GET then
    .ok ⟨parseVariableAt tokens pos, by simp [parseVariableAt]⟩
  else if hpipe : (currentTok tokens pos).type = .PIPE then
    match parsePipeArgs tokens (pos + 1) [] with
    | .ok ⟨(args, p2), h⟩ =>
        .ok ⟨(.pipeNode (currentTok tokens pos).value args, p2), by omega⟩
    | .error e => .error e
  else if (currentTok tokens pos).type = .IDENT then
    .ok ⟨(.literalNode (.str (currentTok tokens pos).value), pos + 1), by omega⟩
  else if (currentTok tokens pos).type = .SYMBOL ∧ (currentTok tokens pos).value = "-" then
    if (currentTok tokens (pos + 1)).type = .NUMBER then
      match numberValue (currentTok tokens (pos + 1)).value with
      | .ok v => .ok ⟨(.literalNode (negValue v), pos + 2), by omega⟩
      | .error e => .error e
    else
      .ok ⟨(.literalNode (.int (-1)), pos + 1), by omega⟩
  else
    .ok ⟨(.literalNode .none, pos + 1), by omega⟩
termination_by (tokens.length - pos, 0)
decreasing_by
  have hlt : pos < tokens.length :=
    lt_of_currentTok_type_ne tokens pos (by rw [hpipe]; intro hc; cases hc)
  simp [Prod.lex_iff]
  omega

/-- The argument loop of `Parser._parse_pipe`: parse expressions until a
statement-marker or end-of-input token; a bare `:` between arguments is
consumed as a separator. -/
def parsePipeArgs (tokens : List Token) (pos : Nat) (acc : List ASTNode) :
    Except PyErr { p : List ASTNode × Nat // pos ≤ p.2 } :=
  if hstop : (currentTok tokens pos).type = .PIPE ∨
             (currentTok tokens pos).type = .ASSIGN ∨
             (currentTok tokens pos).type = .VAR_GET ∨
             (currentTok tokens pos).type = .EOF then
    .ok ⟨(acc, pos), Nat.le_refl _⟩
  else
    if (currentTok tokens pos).value = ":" then
      match parsePipeArgs tokens (pos + 1) acc with
      | .ok ⟨(args, p2), h⟩ => .ok ⟨(args, p2), by omega⟩
      | .error e => .error e
    else
      match parseExpression tokens pos with
      | .ok ⟨(node, p2), h⟩ =>
        (match parsePipeArgs tokens p2 (acc ++ [node]) with
         | .ok ⟨(args, p3), h2⟩ => .ok ⟨(args, p3), by omega⟩
         | .error e => .error e)
      | .error e => .error e
termination_by (tokens.length - pos, 1)
decreasing_by
  · have hlt : pos < tokens.length :=
      lt_of_currentTok_type_ne tokens pos (by
        intro hc
        exact hstop (Or.inr (Or.inr (Or.inr hc))))
    simp [Prod.lex_iff]
    omega
  · simp [Prod.lex_iff]
    try omega
  · have hlt : pos < tokens.length :=
      lt_of_currentTok_type_ne tokens pos (by
        intro hc
        exact hstop (Or.inr (Or.inr (Or.inr hc))))
    simp [Prod.lex_iff]
    omega

end

/-- `Parser._parse_assign`: skip the `&` marker, take the next token's text
as the binding name, optionally consume a `:` separator, then parse exactly
one expression as the bound value. -/
def parseAssignAt (tokens : List Token) (pos : Nat) :
    Except PyErr { p : ASTNode × Nat // pos < p.2 } :=
  if (currentTok tokens (pos + 2)).value = ":" then
    match parseExpression tokens (pos + 3) with
    | .ok ⟨(v, p3), h⟩ =>
        .ok ⟨(.assignNode (currentTok tokens (pos + 1)).value v, p3), by omega⟩
    | .error e => .error e
  else
    match parseExpression tokens (pos + 2) with
    | .ok ⟨(v, p3), h⟩ =>
        .ok ⟨(.assignNode (currentTok tokens (pos + 1)).value v, p3), by omega⟩
    | .error e => .error e

/-- `Parser.parse`: the top-level statement loop, dispatching on the
current token kind until the `EOF` sentinel. -/
def parseProgram (tokens : List Token) (pos : Nat) (acc : List ASTNode) :
    Except PyErr (List ASTNode) :=
  if heof : (currentTok tokens pos).type = .EOF then .ok acc
  else if (currentTok tokens pos).type = .PIPE then
    match parsePipeArgs tokens (pos + 1) [] with
    | .ok ⟨(args, p2), h⟩ =>
        parseProgram tokens p2 (acc ++ [.pipeNode (currentTok tokens pos).value args])
    | .error e => .error e
  else if (currentTok tokens pos).type = .ASSIGN then
    match parseAssignAt tokens pos with
    | .ok ⟨(n, p2), h⟩ => parseProgram tokens p2 (acc ++ [n])
    | .error e => .error e
  else if (currentTok tokens pos).type = .VAR_GET then
    parseProgram tokens (parseVariableAt tokens pos).2
      (acc ++ [(parseVariableAt tokens pos).1])
  else
    match parseExpression tokens pos with
    | .ok ⟨(n, p2), h⟩ => parseProgram tokens p2 (acc ++ [n])
    | .error e => .error e
termination_by tokens.length - pos
decreasing_by
  · have hlt : pos < tokens.length := lt_of_currentTok_type_ne tokens pos heof
    omega
  · have hlt : pos < tokens.length := lt_of_currentTok_type_ne tokens pos heof
    omega
  · have hlt : pos < tokens.length := lt_of_currentTok_type_ne tokens pos heof
    simp [parseVariableAt]
    omega
  · have hlt : pos < tokens.length := lt_of_currentTok_type_ne tokens pos heof
    omega

/-- The whole parser entry point: parse from position 0 into an ordered
statement list. -/
def parse (tokens : List Token) : Except PyErr (List ASTNode) :=
  parseProgram tokens 0 []

/-! ## Top-level entry point (`interpret`) -/

/-- The pipeline inside `interpret`'s `try` block: tokenize, parse,
construct a fresh runtime, execute. -/
def runProgram (source : String) (stdin : List String) (rs : Nat → Rat) :
    InterpState × Outcome Value :=
  match parse (tokenize source) with
  | .ok ast => execute ast (initState stdin rs)
  | .error e => (initState stdin rs, .err e)

/-- `interpret(source)`: run the pipeline; any raised exception is caught,
`Error: {e}` is printed, and `None` is returned in its place.  (A hanging
program hangs — there is nothing to catch.) -/
def interpret (source : String) (stdin : List String) (rs : Nat → Rat) :
    Outcome Value × List String :=
  match runProgram source stdin rs with
  | (s, .ok v) => (.ok v, s.eff.output)
  | (s, .err e) => (.ok .none, s.eff.output ++ ["Error: " ++ e.msg])
  | (s, .hang) => (.hang, s.eff.output)

/-! ## Helper lemmas -/

theorem lookupAssoc_dictSet_self (m : List (String × Value)) (x : String) (v : Value) :
    lookupAssoc (dictSet m x v) x = some v := by
  induction m with
  | nil => simp [dictSet, lookupAssoc]
  | cons kv rest ih =>
      obtain ⟨k, w⟩ := kv
      by_cases hk : k = x
      · simp [dictSet, hk, lookupAssoc]
      · simp [dictSet, hk, lookupAssoc, ih]

theorem numView_toValue (x : NumV) : numView x.toValue = some x := by
  cases x <;> rfl

theorem numView_int (n : Int) : numView (.int n) = some (.i n) := rfl

theorem toRat_i_zero : (NumV.i 0).toRat = 0 := by simp [NumV.toRat]

theorem nvAdd_zero_left (x : NumV) : nvAdd (.i 0) x = x := by
  cases x <;> simp [nvAdd, NumV.toRat]

theorem nvMul_one_left (x : NumV) : nvMul (.i 1) x = x := by
  cases x <;> simp [nvMul, NumV.toRat]

theorem listPop_append (xs : List Value) (v : Value) :
    listPop (xs ++ [v]) = (v, xs) := by
  induction xs with
  | nil => rfl
  | cons x xs ih =>
      cases xs with
      | nil => simp [listPop]
      | cons y ys =>
          simp only [List.cons_append] at *
          simp [listPop, ih]

/-! ## Claim theorems -/

/-- C10: the built-ins `pop` and `shift` return `None` and leave the
sequence unchanged on an empty sequence; on a non-empty sequence `pop`
removes and returns the last element and `shift` removes and returns the
first, and the registry entries expose exactly those results. -/
theorem pop_shift_empty_and_nonempty :
    listPop [] = (Value.none, []) ∧ listShift [] = (Value.none, []) ∧
    (∀ (xs : List Value) (v : Value), listPop (xs ++ [v]) = (v, xs)) ∧
    (∀ (x : Value) (xs : List Value), listShift (x :: xs) = (x, xs)) ∧
    (∀ xs : List Value, builtin_pop [.list xs] = .ok (listPop xs).1) ∧
    (∀ xs : List Value, builtin_shift [.list xs] = .ok (listShift xs).1) := by
  refine ⟨rfl, rfl, listPop_append, fun x xs => rfl, fun xs => rfl, fun xs => rfl⟩

/-- C7: executing the assignment `&x:<v>` stores the literal `v` under `x`
in the (locals) environment and itself returns `v`, and a subsequent `!x`
in the resulting environment yields exactly `v`. -/
theorem assign_roundtrip (x : String) (v : Value) (s : InterpState) :
    evalNode (.assignNode x (.literalNode v)) s =
      ({ s with locals := dictSet s.locals x v }, .ok v) ∧
    evalNode (.variableNode x) { s with locals := dictSet s.locals x v } =
      ({ s with locals := dictSet s.locals x v }, .ok v) := by
  constructor
  · simp [evalNode]
  · simp [evalNode, lookupAssoc_dictSet_self]

/-- C8: evaluating a `VariableRef` for an identifier with no binding
yields `None` rather than failing; lookup consults the environment's
namespace (locals, then the never-written globals). -/
theorem unbound_variable_yields_null (name : String) (s : InterpState)
    (hl : lookupAssoc s.locals name = (Option.none : Option Value))
    (hg : lookupAssoc s.globals name = (Option.none : Option Value)) :
    evalNode (.variableNode name) s = (s, .ok .none) := by
  simp [evalNode, hl, hg]

/-- Witness for C8 at the spec's concrete scenario `!undefinedvar` in a
fresh environment. -/
theorem unbound_variable_yields_null_witness :
    evalNode (.variableNode "undefinedvar") (initState [] fun _ => 0) =
      (initState [] fun _ => 0, .ok .none) :=
  unbound_variable_yields_null "undefinedvar" (initState [] fun _ => 0) rfl rfl

/-- C2: a call whose function name is absent from both the built-in
registry and the user-defined function table fails with a `NameError`
carrying the exact attempted name (it does not yield `None`). -/
theorem unknown_function_nameresolution (f : String) (args : List ASTNode)
    (s : InterpState) (hb : lookupBuiltin f = Option.none)
    (hu : lookupAssoc s.functions f = (Option.none : Option BFun)) :
    evalNode (.pipeNode f args) s =
      (s, .err (.nameError ("Function not found: " ++ f))) := by
  simp [evalNode, resolveFn, hb, hu]

/-- Witness for C2 at the spec's concrete scenario `|frobnicate:1`. -/
theorem unknown_function_nameresolution_witness :
    evalNode (.pipeNode "frobnicate" [.literalNode (.int 1)]) (initState [] fun _ => 0) =
      (initState [] fun _ => 0, .err (.nameError "Function not found: frobnicate")) :=
  unknown_function_nameresolution "frobnicate" [.literalNode (.int 1)]
    (initState [] fun _ => 0) rfl rfl

/-- C5: on numeric operands, `add` computes a+b, `sub` a−b, `mul` a×b
(with int/float promotion); `div` yields the fractional quotient when the
divisor is non-zero and the int `0` (no failure) when it is zero, and `mod`
likewise yields `0` on a zero divisor. -/
theorem arithmetic_builtins_spec (x y : NumV) :
    builtin_add [x.toValue, y.toValue] = .ok (nvAdd x y).toValue ∧
    (nvAdd x y).toRat = x.toRat + y.toRat ∧
    builtin_sub [x.toValue, y.toValue] = .ok (nvSub x y).toValue ∧
    (nvSub x y).toRat = x.toRat - y.toRat ∧
    builtin_mul [x.toValue, y.toValue] = .ok (nvMul x y).toValue ∧
    (nvMul x y).toRat = x.toRat * y.toRat ∧
    builtin_div [x.toValue, y.toValue] =
      (if y.toRat = 0 then .ok (.int 0) else .ok (.float (x.toRat / y.toRat))) ∧
    builtin_mod [x.toValue, y.toValue] =
      (if y.toRat = 0 then .ok (.int 0) else pyModV x.toValue y.toValue) := by
  refine ⟨?_, ?_, ?_, ?_, ?_, ?_, ?_, ?_⟩
  · simp [builtin_add, sumVals, pyAddV, numView_int, numView_toValue, nvAdd_zero_left]
  · cases x <;> cases y <;> simp [nvAdd, NumV.toRat] <;> push_cast <;> ring
  · simp [builtin_sub, numView_toValue]
  · cases x <;> cases y <;> simp [nvSub, NumV.toRat] <;> push_cast <;> ring
  · simp [builtin_mul, prodVals, pyMulV, numView_int, numView_toValue, nvMul_one_left]
  · cases x <;> cases y <;> simp [nvMul, NumV.toRat] <;> push_cast <;> ring
  · by_cases hy : y.toRat = 0 <;>
      simp [builtin_div, pyNe, pyEq, numView_int, numView_toValue, toRat_i_zero, pyDivV, hy]
  · by_cases hy : y.toRat = 0 <;>
      simp [builtin_mod, pyNe, pyEq, numView_int, numView_toValue, toRat_i_zero, hy]

/-- C1 counterexample: calling the unknown name `frobnicate` with a
side-effecting `|log:boom` argument fails with `NameError` while the state
(in particular the output trace, still empty) is untouched — the argument
was never evaluated, so its side effect did **not** occur before the
name-resolution failure, contrary to the claimed argument-first order. -/
theorem pipe_eval_order_counterexample :
    evalNode (.pipeNode "frobnicate" [.pipeNode "log" [.literalNode (.str "boom")]])
        (initState [] fun _ => 0) =
      (initState [] fun _ => 0, .err (.nameError "Function not found: frobnicate")) := by
  have h : resolveFn (initState [] fun _ => 0) "frobnicate" = Option.none := rfl
  simp [evalNode, h]

/-- C1 (amended): `visit_pipe` first resolves the function name — an
unresolvable name raises `NameResolution` before any argument is evaluated,
leaving the state (and hence all side effects) untouched — and only then
evaluates the argument nodes left-to-right, each exactly once in source
order, finally invoking the callable on the evaluated arguments; the
concrete two-`log`-argument call shows the effects firing left-to-right
exactly once each. -/
theorem pipe_resolution_precedes_arguments :
    (∀ (f : String) (args : List ASTNode) (s : InterpState),
        resolveFn s f = Option.none →
        evalNode (.pipeNode f args) s =
          (s, .err (.nameError ("Function not found: " ++ f)))) ∧
    (∀ (f : String) (bf : BFun) (args : List ASTNode) (s : InterpState),
        resolveFn s f = some bf →
        evalNode (.pipeNode f args) s =
          (match evalArgs args s with
           | (s', .ok vs) => invokeFn f bf vs s'
           | (s', .err e) => (s', .err e)
           | (s', .hang) => (s', .hang))) ∧
    (∀ (a : ASTNode) (as : List ASTNode) (s : InterpState),
        evalArgs (a :: as) s =
          (match evalNode a s with
           | (s', .ok v) =>
             (match evalArgs as s' with
              | (s'', .ok vs) => (s'', .ok (v :: vs))
              | (s'', .err e) => (s'', .err e)
              | (s'', .hang) => (s'', .hang))
           | (s', .err e) => (s', .err e)
           | (s', .hang) => (s', .hang))) ∧
    evalNode
        (.pipeNode "concat" [.pipeNode "log" [.literalNode (.str "A")],
                             .pipeNode "log" [.literalNode (.str "B")]])
        (initState [] fun _ => 0) =
      ({ globals := [], locals := [], functions := [],
         eff := { output := ["A", "B"], stdinQ := [], randStream := fun _ => 0,
                  randIdx := 0 } },
       .ok (.str "NoneNone")) := by
  refine ⟨?_, ?_, ?_, ?_⟩
  · intro f args s h
    simp [evalNode, h]
  · intro f bf args s h
    simp [evalNode, h]
  · intro a as s
    simp [evalArgs]
  · simp [evalNode, evalArgs, resolveFn, lookupBuiltin, invokeFn, pureFn,
          builtin_log, builtin_concat, pyStr, initState, String.join] <;> decide

/-- Witness for the amended C1: the no-side-effect unresolved case applied
at a concrete unknown call with a pending stdin line. -/
theorem pipe_resolution_precedes_arguments_witness :
    evalNode (.pipeNode "frobnicate" [.pipeNode "log" [.literalNode (.str "boom")]])
        (initState ["line"] fun _ => 0) =
      (initState ["line"] fun _ => 0,
       .err (.nameError ("Function not found: " ++ "frobnicate"))) :=
  pipe_resolution_precedes_arguments.1 "frobnicate"
    [.pipeNode "log" [.literalNode (.str "boom")]] (initState ["line"] fun _ => 0) rfl

/-- C3 counterexample: `pop` is a registered built-in, and the argument
list `[5]` is one it rejects — but the rejection surfaces as an
`AttributeError` (`5` has no `pop` attribute), not as the claimed
`InvocationType` wrapper, because `visit_pipe` catches only `TypeError`. -/
theorem pop_rejection_not_wrapped_counterexample :
    evalNode (.pipeNode "pop" [.literalNode (.int 5)]) (initState [] fun _ => 0) =
      (initState [] fun _ => 0,
       .err (.attributeError "object has no attribute pop")) := by
  simp [evalNode, evalArgs, resolveFn, lookupBuiltin, invokeFn, pureFn,
        builtin_pop, pyTruthy]

/-- C3 (amended): when a resolved callable rejects its evaluated arguments
by raising a `TypeError`, `visit_pipe` re-raises it as an `InvocationType`
error `TypeError("Error calling {name}: {cause}")` carrying the function
name and the underlying cause; a rejection raising any other exception
kind propagates unwrapped. -/
theorem invocation_typeerror_wrapping :
    (∀ (f : String) (bf : BFun) (vs : List Value) (s : InterpState)
        (eff2 : EffState) (m : String),
        bf vs s.eff = (eff2, .err (.typeError m)) →
        invokeFn f bf vs s =
          ({ s with eff := eff2 },
           .err (.typeError ("Error calling " ++ f ++ ": " ++ m)))) ∧
    (∀ (f : String) (bf : BFun) (vs : List Value) (s : InterpState)
        (eff2 : EffState) (e : PyErr),
        bf vs s.eff = (eff2, .err e) → (∀ m, e ≠ .typeError m) →
        invokeFn f bf vs s = ({ s with eff := eff2 }, .err e)) ∧
    (∀ (f : String) (bf : BFun) (as : List ASTNode) (s s1 : InterpState)
        (vs : List Value),
        resolveFn s f = some bf → evalArgs as s = (s1, .ok vs) →
        evalNode (.pipeNode f as) s = invokeFn f bf vs s1) := by
  refine ⟨?_, ?_, ?_⟩
  · intro f bf vs s eff2 m hb
    simp [invokeFn, hb]
  · intro f bf vs s eff2 e hb hne
    cases e <;> simp [invokeFn, hb]
    exact absurd rfl (hne _)
  · intro f bf as s s1 vs h1 h2
    simp [evalNode, h1, h2]

/-- Witness for the amended C3: an arity rejection of `sub` is wrapped
with the function name; the attribute rejection of `pop` on the int `5`
passes through unwrapped. -/
theorem invocation_typeerror_wrapping_witness :
    invokeFn "sub" (pureFn builtin_sub) [.int 1] (initState [] fun _ => 0) =
      (initState [] fun _ => 0,
       .err (.typeError ("Error calling " ++ "sub" ++ ": " ++
                         "sub takes exactly 2 arguments"))) ∧
    invokeFn "pop" (pureFn builtin_pop) [.int 5] (initState [] fun _ => 0) =
      (initState [] fun _ => 0,
       .err (.attributeError "object has no attribute pop")) := by
  constructor
  · exact invocation_typeerror_wrapping.1 "sub" (pureFn builtin_sub) [.int 1]
      (initState [] fun _ => 0) _ "sub takes exactly 2 arguments" rfl
  · exact invocation_typeerror_wrapping.2.1 "pop" (pureFn builtin_pop) [.int 5]
      (initState [] fun _ => 0) _ (.attributeError "object has no attribute pop")
      rfl (fun m h => by cases h)

/-! ## Preservation of the globals table (for C9) -/

mutual

theorem evalNode_globals : ∀ (n : ASTNode) (s : InterpState),
    (evalNode n s).1.globals = s.globals
  | .literalNode v, s => by simp [evalNode]
  | .variableNode name, s => by
      simp only [evalNode]
      cases lookupAssoc s.locals name <;> simp
      cases lookupAssoc s.globals name <;> simp
  | .assignNode x e, s => by
      have ih := evalNode_globals e s
      simp only [evalNode]
      rcases h : evalNode e s with ⟨s', r⟩
      rw [h] at ih
      simp only [] at ih
      cases r <;> simpa using ih
  | .pipeNode f as, s => by
      simp only [evalNode]
      cases hr : resolveFn s f with
      | none => simp
      | some bf =>
          have ih := evalArgs_globals as s
          rcases h : evalArgs as s with ⟨s', r⟩
          rw [h] at ih
          simp only [] at ih
          cases r with
          | ok vs =>
              simp only [invokeFn]
              rcases hb : bf vs s'.eff with ⟨eff2, r2⟩
              cases r2 with
              | ok v => simpa using ih
              | hang => simpa using ih
              | err e2 => cases e2 <;> simpa using ih
          | err e => simpa using ih
          | hang => simpa using ih

theorem evalArgs_globals : ∀ (as : List ASTNode) (s : InterpState),
    (evalArgs as s).1.globals = s.globals
  | [], s => by simp [evalArgs]
  | a :: as, s => by
      have ih1 := evalNode_globals a s
      simp only [evalArgs]
      rcases h1 : evalNode a s with ⟨s', r⟩
      rw [h1] at ih1
      simp only [] at ih1
      cases r with
      | ok v =>
          have ih2 := evalArgs_globals as s'
          rcases h2 : evalArgs as s' with ⟨s'', r2⟩
          rw [h2] at ih2
          simp only [] at ih2
          cases r2 <;> simp [h2, ih1, ih2]
      | err e => simpa using ih1
      | hang => simpa using ih1

end

/-- C9: the globals mapping is created empty and no node or statement
execution ever writes to it (assignments go to locals only), so variable
resolution behaves as one flat mutable namespace. -/
theorem flat_namespace_invariant :
    (∀ (stdin : List String) (rs : Nat → Rat), (initState stdin rs).globals = []) ∧
    (∀ (n : ASTNode) (s : InterpState), (evalNode n s).1.globals = s.globals) ∧
    (∀ (nodes : List ASTNode) (s : InterpState),
        (execute nodes s).1.globals = s.globals) := by
  refine ⟨fun _ _ => rfl, evalNode_globals, ?_⟩
  intro nodes
  induction nodes with
  | nil => intro s; simp [execute]
  | cons n ns ih =>
      intro s
      cases ns with
      | nil => simpa [execute] using evalNode_globals n s
      | cons m ms =>
          simp only [execute]
          have hg := evalNode_globals n s
          rcases h : evalNode n s with ⟨s', r⟩
          rw [h] at hg
          cases r with
          | ok v => rw [ih s']; exact hg
          | err e => simpa using hg
          | hang => simpa using hg

/-- C4: the top-level `interpret` never propagates a failure: whenever the
tokenize/parse/execute pipeline raises, `interpret` prints an
`Error: {e}` diagnostic (appended to the output produced so far) and
returns `None` in place of the failure; its result is never an exception. -/
theorem interpret_catches_all (source : String) (stdin : List String) (rs : Nat → Rat) :
    (∀ (e : PyErr) (s : InterpState), runProgram source stdin rs = (s, .err e) →
        interpret source stdin rs =
          (.ok .none, s.eff.output ++ ["Error: " ++ e.msg])) ∧
    (∀ e : PyErr, (interpret source stdin rs).1 ≠ .err e) := by
  constructor
  · intro e s h
    simp [interpret, h]
  · intro e
    unfold interpret
    rcases runProgram source stdin rs with ⟨s, r⟩
    cases r <;> simp

/-- Witness for C4: the failing program `|f` (unknown function) is caught;
`interpret` returns `None` plus the diagnostic line. -/
theorem interpret_catches_all_witness :
    interpret "|f" [] (fun _ => 0) = (.ok .none, ["Error: Function not found: f"]) := by
  have htok : tokenize "|f" = lexLoop ['|', 'f'] 1 1 [] := rfl
  have hrun : runProgram "|f" [] (fun _ => 0) =
      (initState [] fun _ => 0, .err (.nameError "Function not found: f")) := by
    simp +decide [runProgram, htok, tokenize, lexLoop, takeRun, pipeNameChar,
      pyIsSpace, pyIsAlnum, pyIsDigit, pyIsAlpha, parse, parseProgram,
      parsePipeArgs, parseExpression, currentTok, execute, evalNode, resolveFn,
      lookupBuiltin, lookupAssoc, initState]
  have h := (interpret_catches_all "|f" [] (fun _ => 0)).1 _ _ hrun
  simpa using h

/-! ## Parser totality (for C6) -/

/-- A `NUMBER` token text the parser's numeric conversion accepts
(`float(...)`/`int(...)` succeeds). -/
def numTextOk (s : String) : Bool :=
  if s.toList.contains '.' then (pyFloat? s).isSome else (pyInt? s).isSome

/-- Every `NUMBER` token in the stream carries a convertible text. -/
def tokensNumOk (tokens : List Token) : Bool :=
  tokens.all fun t => decide (t.type ≠ TokType.NUMBER) || numTextOk t.value

theorem numberValue_ok_of_numTextOk (s : String) (h : numTextOk s = true) :
    ∃ v, numberValue s = .ok v := by
  by_cases hc : s.toList.contains '.'
  · simp only [numTextOk, if_pos hc] at h
    obtain ⟨q, hq⟩ := Option.isSome_iff_exists.mp h
    exact ⟨.float q, by unfold numberValue; rw [if_pos hc, hq]⟩
  · simp only [numTextOk, if_neg hc] at h
    obtain ⟨n, hn⟩ := Option.isSome_iff_exists.mp h
    exact ⟨.int n, by unfold numberValue; rw [if_neg hc, hn]⟩

theorem currentTok_numOk (tokens : List Token) (h : tokensNumOk tokens = true)
    (pos : Nat) (ht : (currentTok tokens pos).type = .NUMBER) :
    numTextOk (currentTok tokens pos).value = true := by
  have hin : pos < tokens.length :=
    lt_of_currentTok_type_ne tokens pos (by rw [ht]; intro hc; cases hc)
  have hmem : currentTok tokens pos ∈ tokens := by
    simp only [currentTok, dif_pos hin]
    exact tokens.get_mem _ _
  have hx := List.all_eq_true.mp h _ hmem
  rw [Bool.or_eq_true, decide_eq_true_iff] at hx
  rcases hx with hx | hx
  · exact absurd ht hx
  · exact hx

theorem except_ok_total {A B : Type} (e : Except A B) (h : ∀ a, e ≠ .error a) :
    ∃ r, e = .ok r := by
  cases e with
  | ok r => exact ⟨r, rfl⟩
  | error a => exact absurd rfl (h a)

theorem parser_total_aux (tokens : List Token) (h : tokensNumOk tokens = true) :
    ∀ k pos : Nat, tokens.length - pos < k →
      (∃ r, parseExpression tokens pos = .ok r) ∧
      (∀ acc, ∃ r, parsePipeArgs tokens pos acc = .ok r) := by
  intro k
  induction k with
  | zero => intro pos hpos; omega
  | succ k ih =>
      intro pos hpos
      have hexpr : ∃ r, parseExpression tokens pos = .ok r := by
        apply except_ok_total
        intro a
        cases htype : (currentTok tokens pos).type with
        | NUMBER =>
            obtain ⟨v, hv⟩ :=
              numberValue_ok_of_numTextOk _ (currentTok_numOk tokens h pos htype)
            simp [parseExpression, htype, hv]
        | KEYWORD =>
            by_cases h1 : (currentTok tokens pos).value = "true"
            · simp [parseExpression, htype, h1]
            · by_cases h2 : (currentTok tokens pos).value = "false" <;>
                simp [parseExpression, htype, h1, h2]
        | PIPE =>
            have hin : pos < tokens.length :=
              lt_of_currentTok_type_ne tokens pos (by rw [htype]; intro hc; cases hc)
            obtain ⟨⟨⟨args, p2⟩, hp⟩, hr⟩ := (ih (pos + 1) (by omega)).2 []
            simp [parseExpression, htype, hr]
        | SYMBOL =>
            by_cases hdash : (currentTok tokens pos).value = "-"
            · by_cases hnum : (currentTok tokens (pos + 1)).type = TokType.NUMBER
              · obtain ⟨v, hv⟩ :=
                  numberValue_ok_of_numTextOk _ (currentTok_numOk tokens h (pos + 1) hnum)
                simp [parseExpression, htype, hdash, hnum, hv]
              · simp [parseExpression, htype, hdash, hnum]
            · simp [parseExpression, htype, hdash]
        | STRING => simp [parseExpression, htype]
        | VAR_GET => simp [parseExpression, htype]
        | IDENT => simp [parseExpression, htype]
        | OBJ_ACCESS => simp [parseExpression, htype]
        | ARR_ACCESS => simp [parseExpression, htype]
        | ASSIGN => simp [parseExpression, htype]
        | EOF => simp [parseExpression, htype]
      refine ⟨hexpr, ?_⟩
      intro acc
      apply except_ok_total
      intro a
      by_cases hstop : (currentTok tokens pos).type = TokType.PIPE ∨
          (currentTok tokens pos).type = TokType.ASSIGN ∨
          (currentTok tokens pos).type = TokType.VAR_GET ∨
          (currentTok tokens pos).type = TokType.EOF
      · simp [parsePipeArgs, hstop]
      · have hin : pos < tokens.length :=
          lt_of_currentTok_type_ne tokens pos (by
            intro hc
            exact hstop (Or.inr (Or.inr (Or.inr hc))))
        by_cases hcolon : (currentTok tokens pos).value = ":"
        · obtain ⟨⟨⟨args, p2⟩, hp⟩, hr⟩ := (ih (pos + 1) (by omega)).2 acc
          simp [parsePipeArgs, hstop, hcolon, hr]
        · obtain ⟨⟨⟨node, p2⟩, hp⟩, he⟩ := hexpr
          obtain ⟨⟨⟨args, p3⟩, hp3⟩, hr2⟩ := (ih p2 (by omega)).2 (acc ++ [node])
          simp [parsePipeArgs, hstop, hcolon, he, hr2]

theorem parseExpression_ok (tokens : List Token) (h : tokensNumOk tokens = true)
    (pos : Nat) : ∃ r, parseExpression tokens pos = .ok r :=
  (parser_total_aux tokens h (tokens.length - pos + 1) pos (by omega)).1

theorem parsePipeArgs_ok (tokens : List Token) (h : tokensNumOk tokens = true)
    (pos : Nat) (acc : List ASTNode) : ∃ r, parsePipeArgs tokens pos acc = .ok r :=
  (parser_total_aux tokens h (tokens.length - pos + 1) pos (by omega)).2 acc

theorem parseAssignAt_ok (tokens : List Token) (h : tokensNumOk tokens = true)
    (pos : Nat) : ∃ r, parseAssignAt tokens pos = .ok r := by
  apply except_ok_total
  intro a
  by_cases hc : (currentTok tokens (pos + 2)).value = ":"
  · obtain ⟨⟨⟨v, p3⟩, hp⟩, he⟩ := parseExpression_ok tokens h (pos + 3)
    simp [parseAssignAt, hc, he]
  · obtain ⟨⟨⟨v, p3⟩, hp⟩, he⟩ := parseExpression_ok tokens h (pos + 2)
    simp [parseAssignAt, hc, he]

theorem parseProgram_total (tokens : List Token) (h : tokensNumOk tokens = true) :
    ∀ k pos : Nat, tokens.length - pos < k → ∀ acc,
      ∃ nodes, parseProgram tokens pos acc = .ok nodes := by
  intro k
  induction k with
  | zero => intro pos hpos; omega
  | succ k ih =>
      intro pos hpos acc
      apply except_ok_total
      intro a
      rw [parseProgram.eq_def]
      by_cases heof : (currentTok tokens pos).type = TokType.EOF
      · simp [heof]
      · have hin : pos < tokens.length := lt_of_currentTok_type_ne tokens pos heof
        by_cases hpipe : (currentTok tokens pos).type = TokType.PIPE
        · obtain ⟨⟨⟨args, p2⟩, hp⟩, hr⟩ := parsePipeArgs_ok tokens h (pos + 1) []
          obtain ⟨nodes, hn⟩ :=
            ih p2 (by omega) (acc ++ [.pipeNode (currentTok tokens pos).value args])
          simp [heof, hpipe, hr, hn]
        · by_cases hassign : (currentTok tokens pos).type = TokType.ASSIGN
          · obtain ⟨⟨⟨n, p2⟩, hp⟩, hr⟩ := parseAssignAt_ok tokens h pos
            obtain ⟨nodes, hn⟩ := ih p2 (by omega) (acc ++ [n])
            simp [heof, hpipe, hassign, hr, hn]
          · by_cases hvar : (currentTok tokens pos).type = TokType.VAR_GET
            · obtain ⟨nodes, hn⟩ :=
                ih (pos + 2) (by omega) (acc ++ [(parseVariableAt tokens pos).1])
              simp only [parseVariableAt] at hn
              simp [heof, hpipe, hassign, hvar, parseVariableAt, hn]
            · obtain ⟨⟨⟨n, p2⟩, hp⟩, hr⟩ := parseExpression_ok tokens h pos
              obtain ⟨nodes, hn⟩ := ih p2 (by omega) (acc ++ [n])
              simp [heof, hpipe, hassign, hvar, hr, hn]

/-- C6 counterexample: the lexer turns the source `1.2.3` into a single
`NUMBER` token (multiple dots are not rejected), and the parser then
raises `ValueError` from `float("1.2.3")` — it does not return. -/
theorem parser_numeric_valueerror_counterexample :
    parse (tokenize "1.2.3") =
      .error (.valueError "could not convert string to float: 1.2.3") := by
  have htok : tokenize "1.2.3" = lexLoop ['1', '.', '2', '.', '3'] 1 1 [] := rfl
  simp +decide [parse, htok, lexLoop, takeRun, pyIsSpace, pyIsDigit, pyIsAlpha,
    pyIsAlnum, parseProgram, parseExpression, parsePipeArgs, currentTok,
    numberValue, pyFloat?]

/-- C6 (amended): for every finite token sequence whose `NUMBER` tokens
carry well-formed numeral texts, the parser terminates with an ordered
statement list and raises nothing; expression tokens of unhandled kinds
(object/array access markers, assignment markers, non-`-` symbols, EOF)
degrade to a `None` literal node instead of producing a parse error.
(The sole exception, excluded by the hypothesis, is the `ValueError` from
converting a malformed `NUMBER` text.) -/
theorem parser_total_on_wellformed_numbers (tokens : List Token)
    (h : tokensNumOk tokens = true) :
    (∃ nodes, parse tokens = .ok nodes) ∧
    (∀ pos : Nat,
        ((currentTok tokens pos).type = .OBJ_ACCESS ∨
         (currentTok tokens pos).type = .ARR_ACCESS ∨
         (currentTok tokens pos).type = .ASSIGN ∨
         ((currentTok tokens pos).type = .SYMBOL ∧
            (currentTok tokens pos).value ≠ "-") ∨
         (currentTok tokens pos).type = .EOF) →
        parseExpression tokens pos =
          .ok ⟨(.literalNode .none, pos + 1), Nat.lt_succ_self pos⟩) := by
  constructor
  · exact parseProgram_total tokens h (tokens.length + 1) 0 (by omega) []
  · intro pos hcase
    rcases hcase with ht | ht | ht | ⟨ht, hv⟩ | ht
    · simp [parseExpression, ht]
    · simp [parseExpression, ht]
    · simp [parseExpression, ht]
    · simp [parseExpression, ht, hv]
    · simp [parseExpression, ht]

/-- Witness for the amended C6: a malformed-but-convertible stream — an
`OBJ_ACCESS` marker (unparseable as an expression), a plain number and a
stray `(` — parses without failure. -/
theorem parser_total_on_wellformed_numbers_witness :
    tokensNumOk [⟨.OBJ_ACCESS, "", 1, 1⟩, ⟨.NUMBER, "4.5", 1, 2⟩,
                 ⟨.SYMBOL, "(", 1, 5⟩, ⟨.EOF, "", 1, 6⟩] = true ∧
    ∃ nodes,
      parse [⟨.OBJ_ACCESS, "", 1, 1⟩, ⟨.NUMBER, "4.5", 1, 2⟩,
             ⟨.SYMBOL, "(", 1, 5⟩, ⟨.EOF, "", 1, 6⟩] = .ok nodes := by
  refine ⟨by decide, ?_⟩
  exact (parser_total_on_wellformed_numbers _ (by decide)).1

/-- Witness for C5 at the concrete operands 7 and 5. -/
theorem arithmetic_builtins_spec_witness :
    builtin_add [(NumV.i 7).toValue, (NumV.i 5).toValue] =
      .ok (nvAdd (.i 7) (.i 5)).toValue ∧
    (nvAdd (NumV.i 7) (NumV.i 5)).toRat = (NumV.i 7).toRat + (NumV.i 5).toRat :=
  ⟨(arithmetic_builtins_spec (.i 7) (.i 5)).1,
   (arithmetic_builtins_spec (.i 7) (.i 5)).2.1⟩

/-- Witness for C7 at the binding `&x:42` in a fresh environment. -/
theorem assign_roundtrip_witness :
    evalNode (.assignNode "x" (.literalNode (.int 42))) (initState [] fun _ => 0) =
      ({ initState [] fun _ => 0 with
          locals := dictSet (initState [] fun _ => 0).locals "x" (.int 42) },
       .ok (.int 42)) :=
  (assign_roundtrip "x" (.int 42) (initState [] fun _ => 0)).1

/-- Witness for C9 at a concrete one-assignment program. -/
theorem flat_namespace_invariant_witness :
    (execute [ASTNode.assignNode "x" (.literalNode (.int 1))]
        (initState [] fun _ => 0)).1.globals =
      (initState [] fun _ => 0).globals :=
  flat_namespace_invariant.2.2 [ASTNode.assignNode "x" (.literalNode (.int 1))]
    (initState [] fun _ => 0)

/-- Witness for C10 at the concrete sequence `[1, 2]`. -/
theorem pop_shift_empty_and_nonempty_witness :
    listPop [Value.int 1, Value.int 2] = (Value.int 2, [Value.int 1]) := by
  have h := pop_shift_empty_and_nonempty.2.2.1 [Value.int 1] (Value.int 2)
  simpa using h

end DotPipe
